import Mathlib

/-!
Verification development for the POS stream uploader
(`711usingtransactionsummary.py`): a shallow embedding of the transaction
assembler (`parser_worker`), the payload builders (`build_cash_op_payload`,
`build_txn_payload`, `build_refund_payload`) and the dispatcher's
endpoint/builder selection (`dispatcher_worker`), together with theorems
about the claims of the specification.

Modelling conventions:
- Python floats are modelled as exact rationals (`ℚ`); `decimal.Decimal
  .quantize(Decimal('0.01'), ROUND_HALF_UP)` is modelled by `roundHalfUp2`.
- Python `dict.get(k, d)` on optional record fields is modelled by
  `Option.getD`.
- A Python expression that can raise (e.g. `float("abc")`, `int("x")`) is
  modelled by an `Option`-returning function; `none` stands for the raised
  exception propagating out of the enclosing handler.
- `str.upper/lower/strip/replace/startswith/in` are modelled by executable
  character-list functions below.
- `uuid.uuid5(NAMESPACE_URL, ns)` is deterministic in `ns`; it is modelled
  by the name string `ns` itself (no claim inspects the digest value).
- `to_utc` performs wall-clock/timezone arithmetic; no claim inspects the
  converted value, so it is modelled as the identity on the timestamp
  string.  Values of `datetime.now()` / `time.time()` are threaded as
  explicit `now`/`tsec` parameters to keep the embedding pure.
-/

/-- Uppercase every character of a string (`str.upper` on the ASCII inputs
of this protocol). -/
def strUpper (s : String) : String := ⟨s.toList.map Char.toUpper⟩

/-- Lowercase every character of a string (`str.lower`). -/
def strLower (s : String) : String := ⟨s.toList.map Char.toLower⟩

/-- Drop leading whitespace of a character list. -/
def dropW (cs : List Char) : List Char := cs.dropWhile Char.isWhitespace

/-- Strip whitespace from both ends of a character list (`str.strip`). -/
def stripL (cs : List Char) : List Char := ((dropW cs).reverse |> dropW).reverse

/-- Strip whitespace from both ends of a string (`str.strip`). -/
def strTrim (s : String) : String := ⟨stripL s.toList⟩

/-- Remove every occurrence of the given characters
(`str.replace(c, '')` chained). -/
def removeChars (s : String) (bad : List Char) : String :=
  ⟨s.toList.filter (fun c => !(bad.contains c))⟩

/-- First `n` characters of a string (Python slicing `s[:n]`). -/
def strTake (s : String) (n : ℕ) : String := ⟨s.toList.take n⟩

/-- Whether the list `p` occurs at the head of `l`. -/
def listStarts : List Char → List Char → Bool
  | _, [] => true
  | [], _ :: _ => false
  | c :: cs, p :: ps => c == p && listStarts cs ps

/-- Whether the list `p` occurs contiguously anywhere in `l`
(Python `p in l`). -/
def listHas : List Char → List Char → Bool
  | [], p => p.isEmpty
  | c :: cs, p => listStarts (c :: cs) p || listHas cs p

/-- Whether `pat` is an initial segment of `s` (`str.startswith`). -/
def strStarts (s pat : String) : Bool := listStarts s.toList pat.toList

/-- Whether `pat` occurs as a substring of `s` (Python `pat in s`). -/
def strHas (s pat : String) : Bool := listHas s.toList pat.toList

/-- Last character of a string, as a string (Python `s[-1]`, used for the
port-name fallback terminal id). -/
def portLast (p : String) : String :=
  match p.toList.getLast? with
  | some c => ⟨[c]⟩
  | none => ""

/-- Numeric value of a list of decimal digits. -/
def digitsToNat (cs : List Char) : ℕ :=
  cs.foldl (fun a c => 10 * a + (c.toNat - 48)) 0

/-- Split a character list into its maximal leading run of digits and the
remainder. -/
def takeDigits : List Char → List Char × List Char
  | [] => ([], [])
  | c :: cs =>
      if c.isDigit then (c :: (takeDigits cs).1, (takeDigits cs).2)
      else ([], c :: cs)

/-- Parse an unsigned decimal literal (digits with at most one dot, at
least one digit overall), the fragment of Python `float()` grammar the
protocol uses.  `none` models a raised `ValueError`. -/
def parseUnsignedDec (cs : List Char) : Option ℚ :=
  let p := takeDigits cs
  match p.2 with
  | [] => if p.1 ≠ [] then some (digitsToNat p.1) else none
  | '.' :: rest =>
      let f := takeDigits rest
      if f.2 = [] ∧ (p.1 ≠ [] ∨ f.1 ≠ []) then
        some ((digitsToNat p.1 : ℚ) + (digitsToNat f.1 : ℚ) / (10 ^ f.1.length : ℚ))
      else none
  | _ => none

/-- Python `float(s)` on a string: optional sign, optional surrounding
whitespace, decimal literal.  `none` models a raised `ValueError`. -/
def parsePyFloat (s : String) : Option ℚ :=
  match stripL s.toList with
  | '-' :: rest => (parseUnsignedDec rest).map (fun q => -q)
  | '+' :: rest => parseUnsignedDec rest
  | cs => parseUnsignedDec cs

/-- Python `int(s)` on a string: optional sign, digits only (no dot).
`none` models a raised `ValueError`. -/
def parsePyIntStr (s : String) : Option ℤ :=
  match stripL s.toList with
  | '-' :: rest =>
      if rest ≠ [] ∧ rest.all Char.isDigit then some (-(digitsToNat rest : ℤ)) else none
  | '+' :: rest =>
      if rest ≠ [] ∧ rest.all Char.isDigit then some ((digitsToNat rest : ℤ)) else none
  | cs =>
      if cs ≠ [] ∧ cs.all Char.isDigit then some ((digitsToNat cs : ℤ)) else none

/-- Truncation toward zero (Python `int()` applied to a float). -/
def pyTrunc (q : ℚ) : ℤ := if 0 ≤ q then ⌊q⌋ else ⌈q⌉

/-- Sum of a list of rationals (Python `sum`). -/
def sumQ (l : List ℚ) : ℚ := l.foldl (· + ·) 0

/-- Round to the nearest integer, ties away from zero
(`decimal.ROUND_HALF_UP`). -/
def halfUpZ (x : ℚ) : ℤ := if 0 ≤ x then ⌊x + 1 / 2⌋ else -⌊-x + 1 / 2⌋

/-- Round a rational to 2 decimal places, ties away from zero:
`Decimal(x).quantize(Decimal('0.01'), ROUND_HALF_UP)`. -/
def roundHalfUp2 (q : ℚ) : ℚ := (halfUpZ (q * 100) : ℚ) / 100

theorem halfUpZ_intCast (z : ℤ) : halfUpZ (z : ℚ) = z := by
  unfold halfUpZ
  by_cases h : (0 : ℚ) ≤ (z : ℚ)
  · rw [if_pos h, Int.floor_int_add]
    norm_num
  · rw [if_neg h]
    rw [show (-(z : ℚ) + 1 / 2) = ((-z : ℤ) : ℚ) + (1 / 2 : ℚ) by push_cast; ring]
    rw [Int.floor_int_add]
    norm_num

theorem roundHalfUp2_intCast_div (z : ℤ) :
    roundHalfUp2 ((z : ℚ) / 100) = (z : ℚ) / 100 := by
  unfold roundHalfUp2
  rw [show ((z : ℚ) / 100 * 100) = (z : ℚ) by field_simp]
  rw [halfUpZ_intCast]

/-- Rounding to 2 decimals is idempotent: a value already produced by
`roundHalfUp2` is fixed by it. -/
theorem roundHalfUp2_idem (q : ℚ) :
    roundHalfUp2 (roundHalfUp2 q) = roundHalfUp2 q := by
  show roundHalfUp2 ((halfUpZ (q * 100) : ℚ) / 100) = _
  rw [roundHalfUp2_intCast_div]
  rfl

/-! ## Data model

Record fields are modelled after the dict accesses actually performed by
`parser_worker` and the payload builders.  An `Option` field stands for a
key that may be absent from the incoming JSON object. -/

/-- A JSON scalar as it reaches a numeric coercion site: either already a
number or a string. -/
inductive PyVal where
  | num (q : ℚ)
  | str (s : String)
deriving DecidableEq

/-- Python `float(v)` on a JSON scalar; `none` models a raised
`ValueError`. -/
def pyFloat : PyVal → Option ℚ
  | .num q => some q
  | .str s => parsePyFloat s

/-- Python `int(v)` on a JSON scalar (truncation for numbers, an integer
literal for strings); `none` models a raised `ValueError`. -/
def pyInt : PyVal → Option ℤ
  | .num q => some (pyTrunc q)
  | .str s => parsePyIntStr s

/-- One entry of a `cartChangeTrail` record, with the four fields the
assembler reads. -/
structure CartRaw where
  eventType : Option String
  itemName : Option String
  price : Option PyVal
  quantity : Option PyVal
deriving DecidableEq

/-- An accumulated order line (`buf['items']` / `buf['voids']` entry):
`event` is the string `"add"` or `"void"` exactly as in the source. -/
structure Entry where
  name : String
  price : ℚ
  quantity : ℤ
  event : String
deriving DecidableEq

/-- An accumulated payment (`buf['payments']` entry).  The `change` key is
absent until the second transaction summary attaches it. -/
structure Payment where
  amount : ℚ
  tenderType : String
  is_cash : Bool
  change : Option ℚ
deriving DecidableEq

/-- One entry of a `paymentSummary` record. -/
structure PaySummEntry where
  description : Option String
  details : Option String
deriving DecidableEq

/-- One entry of a `transactionSummary` record. -/
structure SummEntry where
  description : Option String
  details : Option String
deriving DecidableEq

/-- The `metaData` object, with the keys `parser_worker` reads. -/
structure Meta where
  timeStamp : Option String
  terminalId : Option String
  sequenceNumber : Option String
  storeId : Option String
  operatorId : Option String
  operatorName : Option String
  transactionType : Option String
  operation : Option String
deriving DecidableEq

/-- The per-channel transaction buffer (`buffers[port]` when not `None`).
`awaiting_cash_change` models the dict key with its `get`-default
`False`. -/
structure Buffer where
  meta : Option Meta
  items : List Entry
  voids : List Entry
  payments : List Payment
  summary_list : List SummEntry
  summary_map : List (String × ℚ)
  operation : String
  awaiting_cash_change : Bool
deriving DecidableEq

/-- A standalone cash-drawer command record (`CMD` of `NoSale`, `PaidOut`
or `CashDrop`), with the keys the handler reads.  `store` is present in
the model to express that the handler never consults it. -/
structure CmdRec where
  cmd : String
  datetime : Option String
  terminal : Option String
  sequence : Option String
  operator : Option String
  amount : Option PyVal
  store : Option String
deriving DecidableEq

/-- The completed transaction object built by `parser_worker` (both the
standalone cash-command path and the cycle-close path). -/
structure Tx where
  guid : String
  seq : String
  type : String
  operation : String
  amount : Option PyVal
  store : String
  location_desc : String
  terminal : String
  ts_local : String
  ts_utc : String
  operator : String
  employee_id : String
  employee_name : String
  items : List Entry
  payments : List Payment
  summary_map : List (String × ℚ)
  voids : List Entry
deriving DecidableEq

/-- Timezone conversion `to_utc`.  No claim inspects the converted value,
so the wall-clock arithmetic is abstracted to the identity on the
timestamp string. -/
def to_utc (s : String) : String := s

/-- Deterministic GUID `uuid.uuid5(NAMESPACE_URL, ns)`: modelled by the
namespace string `ns` itself, which determines the digest. -/
def generate_guid (store terminal seq ts_utc : String) : String :=
  store ++ "-" ++ terminal ++ "-" ++ seq ++ "-" ++ ts_utc

/-- Tender-description normalization (`map_tender`). -/
def map_tender (desc : String) : String :=
  let d := strUpper desc
  if strHas d "CASH" then "Cash"
  else if strHas d "VISA" || strHas d "MASTERCARD" || strHas d "AMEX" || strHas d "DISCOVER" then
    "CreditCard"
  else if strHas d "DEBIT" then "DebitCard"
  else if strStarts d "ACCT#" || strStarts d "ACCOUNT" then "AccountPayment"
  else "Other"

/-! ## Transaction assembler (`parser_worker`) -/

/-- Handler for a standalone `NoSale`/`PaidOut`/`CashDrop` command
(`parser_worker`, lines 217–260).  `now` is the `datetime.now()` fallback
timestamp. -/
def handleCashCmd (port now : String) (rec : CmdRec) : Tx :=
  let operation_type := strLower rec.cmd
  let ts_local0 := rec.datetime.getD ""
  let ts_local := if ts_local0 = "" then now else ts_local0
  let ts_utc := to_utc ts_local
  let terminal := rec.terminal.getD (portLast port)
  let seq := rec.sequence.getD "0"
  let amount := rec.amount.getD (PyVal.num 0)
  let store := "1001"
  let guid := generate_guid store terminal seq ts_utc
  { guid := guid, seq := seq, type := "cash-operation", operation := operation_type,
    amount := some amount, store := store, location_desc := "Windsor Mill 711",
    terminal := terminal, ts_local := ts_local, ts_utc := ts_utc,
    operator := rec.operator.getD "",
    employee_id := rec.operator.getD "OP5",
    employee_name := rec.operator.getD "Operator Five",
    items := [], payments := [], summary_map := [], voids := [] }

/-- Handler for `StartTransaction` (lines 263–274): a fresh buffer,
capturing an operation tag if the record carries one. -/
def startBuffer (operation : Option String) : Buffer :=
  { meta := none, items := [], voids := [], payments := [], summary_list := [],
    summary_map := [], operation := operation.getD "",
    awaiting_cash_change := false }

/-- Handler for a `metaData` record (lines 282–288). -/
def handleMeta (buf : Buffer) (m : Meta) : Buffer :=
  let buf1 := { buf with meta := some m }
  match m.operation with
  | some op => if op ≠ "" then { buf1 with operation := op } else buf1
  | none => buf1

/-- One `cartChangeTrail` entry (lines 296–307): absent price/quantity
default to `0`/`1`; a present value goes through `float()`/`int()`, whose
failure (`none`) models the uncaught exception. -/
def processCartEntry (c : CartRaw) : Option Entry :=
  let nm := c.itemName.getD ""
  match (match c.price with
         | none => some (0 : ℚ)
         | some v => pyFloat v) with
  | none => none
  | some pr =>
    match (match c.quantity with
           | none => some (1 : ℤ)
           | some v => pyInt v) with
    | none => none
    | some qt =>
      some { name := nm, price := pr, quantity := qt,
             event := if c.eventType == some "voidLineItem" then "void" else "add" }

/-- Whole `cartChangeTrail` record (lines 291–309): each entry is appended
to `items` or, for a line-void, to `voids`. -/
def processCartTrail (buf : Buffer) : List CartRaw → Option Buffer
  | [] => some buf
  | c :: rest =>
    match processCartEntry c with
    | none => none
    | some e =>
      let buf1 :=
        if e.event == "void" then { buf with voids := buf.voids ++ [e] }
        else { buf with items := buf.items ++ [e] }
      processCartTrail buf1 rest

/-- Loop body of the `paymentSummary` handler (lines 322–337): entries
whose details do not start with `$` are skipped; a cash tender sets the
awaiting-change flag. -/
def processPayEntries (buf : Buffer) : List PaySummEntry → Option Buffer
  | [] => some buf
  | p :: rest =>
    let det := p.details.getD ""
    if strStarts det "$" then
      match parsePyFloat (removeChars det ['$']) with
      | none => none
      | some amt =>
        let tt := p.description.getD ""
        let buf1 :=
          { buf with
            payments := buf.payments ++ [{ amount := amt, tenderType := tt,
                                           is_cash := strUpper tt == "CASH",
                                           change := none }],
            awaiting_cash_change :=
              (strUpper tt == "CASH") || buf.awaiting_cash_change }
        processPayEntries buf1 rest
    else processPayEntries buf rest

/-- Whole `paymentSummary` record (lines 312–340): the prior payment list
is cleared first. -/
def processPaySummary (buf : Buffer) (pays : List PaySummEntry) : Option Buffer :=
  processPayEntries { buf with payments := [] } pays

/-- Clean a detail string for numeric parsing:
`.replace('$','').replace(',','').strip()`. -/
def cleanedDetails (s : String) : String := strTrim (removeChars s ['$', ','])

/-- Numeric value of a summary detail string, defaulting to `0` when the
`float()` conversion fails (lines 355–359). -/
def summaryDetailVal (s : String) : ℚ := (parsePyFloat (cleanedDetails s)).getD 0

/-- Python dict assignment `smap[key] = val` on the insertion-ordered
association list modelling the summary map. -/
def smInsert (m : List (String × ℚ)) (k : String) (v : ℚ) : List (String × ℚ) :=
  if m.any (fun kv => kv.1 == k) then
    m.map (fun kv => if kv.1 == k then (k, v) else kv)
  else m ++ [(k, v)]

/-- Build the summary map from the first transaction summary
(lines 352–361). -/
def buildSummaryMap (summ : List SummEntry) : List (String × ℚ) :=
  summ.foldl
    (fun m e =>
      smInsert m (strUpper (strTrim (e.description.getD "")))
        (summaryDetailVal (e.details.getD "")))
    []

/-- Python `dict.get(k, d)` on the summary map. -/
def smGetD (m : List (String × ℚ)) (k : String) (d : ℚ) : ℚ :=
  match m.find? (fun kv => kv.1 == k) with
  | some kv => kv.2
  | none => d

/-- First summary value whose key starts with `TAX`
(`next((v for k, v in sm.items() if k.startswith('TAX')), 0.0)`). -/
def smFirstTax (m : List (String × ℚ)) : ℚ :=
  match m.find? (fun kv => strStarts kv.1 "TAX") with
  | some kv => kv.2
  | none => 0

/-- The change amount announced by a second-summary entry: `some v` when
the entry's key is `CHANGE` and its details parse (lines 366–370). -/
def changeVal (e : SummEntry) : Option ℚ :=
  if strUpper (strTrim (e.description.getD "")) == "CHANGE" then
    parsePyFloat (cleanedDetails (e.details.getD ""))
  else none

/-- Set the change amount on the first cash payment of the list
(lines 372–376: the loop over `buf['payments']` with `break`). -/
def updateFirstCash : List Payment → ℚ → List Payment
  | [], _ => []
  | p :: rest, v =>
    if p.is_cash then { p with change := some v } :: rest
    else p :: updateFirstCash rest v

/-- Effect of one second-summary entry on the payment list: a `CHANGE`
entry with a parsable value updates the first cash payment, anything else
leaves the list alone (lines 365–378). -/
def applyChange (pays : List Payment) (e : SummEntry) : List Payment :=
  match changeVal e with
  | some v => updateFirstCash pays v
  | none => pays

/-- Second-summary handling while awaiting cash change (lines 363–383):
every `CHANGE` entry with a parsable value updates the first cash payment;
the flag is reset; nothing else in the buffer is touched. -/
def handleSecondSummary (buf : Buffer) (summ : List SummEntry) : Buffer :=
  { buf with payments := summ.foldl applyChange buf.payments,
             awaiting_cash_change := false }

/-- The buffer-mutating part of the `transactionSummary` handler
(lines 343–383): a first summary is stored and mapped; a second one while
awaiting cash change only extracts `CHANGE`. -/
def handleSummaryRecord (buf : Buffer) (summ : List SummEntry) : Buffer :=
  if buf.summary_list.isEmpty then
    { buf with summary_list := summ, summary_map := buildSummaryMap summ }
  else if buf.awaiting_cash_change then handleSecondSummary buf summ
  else buf

/-- Empty meta object, the `buf['meta'] or {}` fallback of line 386. -/
def emptyMeta : Meta :=
  { timeStamp := none, terminalId := none, sequenceNumber := none,
    storeId := none, operatorId := none, operatorName := none,
    transactionType := none, operation := none }

/-- The cycle-close part of the `transactionSummary` handler
(lines 385–436): derives identity fields from the meta record, classifies
the transaction and materializes the immutable `Tx`. -/
def closeCycle (port now : String) (buf : Buffer) (recTimestamp : Option String) : Tx :=
  let meta := buf.meta.getD emptyMeta
  let ts_local0 := meta.timeStamp.getD (recTimestamp.getD "")
  let ts_local := if ts_local0 = "" then now else ts_local0
  let ts_utc := to_utc ts_local
  let terminal := meta.terminalId.getD (portLast port)
  let seq := meta.sequenceNumber.getD "0"
  let store := meta.storeId.getD "1001"
  let guid := generate_guid store terminal seq ts_utc
  let is_refund :=
    buf.items.any (fun i => decide (i.price < 0)) ||
    (strLower buf.operation == "refund") ||
    (strLower (meta.transactionType.getD "") == "refund")
  let tx_type0 := if is_refund then "refund" else "standard-sale"
  let tx_type :=
    if strLower buf.operation ∈ (["nosale", "paidout", "cashdrop"] : List String) then
      "cash-operation"
    else tx_type0
  { guid := guid, seq := seq, type := tx_type, operation := buf.operation,
    amount := none, store := store, location_desc := "Windsor Mill 711",
    terminal := terminal, ts_local := ts_local, ts_utc := ts_utc,
    operator := meta.operatorId.getD "",
    employee_id := meta.operatorId.getD "OP5",
    employee_name := meta.operatorName.getD "Operator Five",
    items := buf.items, payments := buf.payments,
    summary_map := buf.summary_map, voids := buf.voids }

/-- Full `transactionSummary` handler: buffer mutation followed by cycle
close on the mutated buffer. -/
def handleTxnSummary (port now : String) (buf : Buffer) (summ : List SummEntry)
    (recTimestamp : Option String) : Tx :=
  closeCycle port now (handleSummaryRecord buf summ) recTimestamp

/-! ## Payload builders -/

/-- The payload dict built locally by `build_cash_op_payload`
(lines 468–493). -/
structure CashOpPayload where
  model : String
  transactionGUID : String
  transactionDateTimeStamp : String
  transactionType : String
  businessDate : String
  locationID : String
  locationDescription : String
  deviceID : String
  deviceDescription : String
  employeeID : String
  employeeFullName : String
  cashOperationType : String
deriving DecidableEq

/-- The dict assigned to the local variable `cash_op_payload` in
`build_cash_op_payload` (lines 443–493). -/
def cashOpLocalDict (tx : Tx) : CashOpPayload :=
  let biz := removeChars (strTake tx.ts_utc 10) ['-']
  let ts := tx.ts_utc
  let op := strLower tx.operation
  let operation_type :=
    if op = "paidout" then "PaidOut"
    else if op = "cashdrop" ∨ op = "drop" then "Drop"
    else if op = "nosale" ∨ op = "" then "NoSale"
    else "NoSale"
  { model := "CashOperation",
    transactionGUID := tx.guid,
    transactionDateTimeStamp := ts,
    transactionType := "New",
    businessDate := biz,
    locationID := tx.store,
    locationDescription := tx.location_desc,
    deviceID := tx.terminal,
    deviceDescription := "POS Terminal " ++ tx.terminal,
    employeeID := tx.employee_id,
    employeeFullName := tx.employee_name,
    cashOperationType := operation_type }

/-- Python `float(amount)` coercion of lines 460–465, with its
`try/except` zero fallback. -/
def cashOpAmount (tx : Tx) : ℚ :=
  match tx.amount.getD (PyVal.num 0) with
  | .num q => q
  | .str s => (parsePyFloat s).getD 0

/-- Model of `build_cash_op_payload` (lines 443–493).  The Python function
body assigns the payload dict to the local `cash_op_payload` and then
falls off the end without a `return` statement, so the call evaluates to
`None` — modelled here as `none`. -/
def build_cash_op_payload (tx : Tx) : Option CashOpPayload :=
  let _amount := cashOpAmount tx
  let _cash_op_payload := cashOpLocalDict tx
  none

/-- One rendered order line of the `Transaction` / `RefundTransaction`
payloads. -/
structure RenderedItem where
  itemState : String
  stateTimestamp : String
  itemType : String
  category : String
  productID : String
  name : String
  itemPrice : ℚ
  quantity : ℤ
deriving DecidableEq

/-- One rendered payment of the outbound payloads. -/
structure RenderedPayment where
  timestamp : String
  status : String
  amount : ℚ
  change : ℚ
  tender : String
deriving DecidableEq

/-- The `Transaction` payload shape produced by `build_txn_payload`. -/
structure TxnPayload where
  model : String
  transactionGUID : String
  transactionDateTimeStamp : String
  transactionType : String
  businessDate : String
  locationID : String
  locationDescription : String
  deviceID : String
  employeeID : String
  employeeFullName : String
  orderNumber : ℤ
  orderState : String
  orderItems : List RenderedItem
  totalItemPrice : ℚ
  taxAmounts : List ℚ
  orderItemCount : ℕ
  payments : List RenderedPayment
deriving DecidableEq

/-- Fallback payload value used only to name concrete witnesses. -/
def emptyTxnPayload : TxnPayload :=
  { model := "", transactionGUID := "", transactionDateTimeStamp := "",
    transactionType := "", businessDate := "", locationID := "",
    locationDescription := "", deviceID := "", employeeID := "",
    employeeFullName := "", orderNumber := 0, orderState := "",
    orderItems := [], totalItemPrice := 0, taxAmounts := [],
    orderItemCount := 0, payments := [] }

/-- One order line of `build_txn_payload` (lines 512–552), at 1-based
index `idx`. -/
def renderLine (seq ts : String) (idx : ℕ) (itm : Entry) : RenderedItem :=
  let is_void := itm.event == "void"
  let state := if is_void then "Voided" else "Added"
  let typ := if is_void then "Voided" else "Sale"
  let pid := "PID" ++ seq ++ "_" ++ toString idx
  let is_promo := strHas (strUpper itm.name) "PROMO" || decide (itm.price < 0)
  let category := if is_promo then "Promotion" else "General"
  let item_price :=
    if is_promo && decide (0 < itm.price) && !is_void then -|itm.price|
    else itm.price
  { itemState := state, stateTimestamp := ts, itemType := typ,
    category := category, productID := pid, name := itm.name,
    itemPrice := roundHalfUp2 item_price, quantity := itm.quantity }

/-- The order-line loop of `build_txn_payload` with its running index. -/
def renderLines (seq ts : String) : ℕ → List Entry → List RenderedItem
  | _, [] => []
  | idx, itm :: rest => renderLine seq ts idx itm :: renderLines seq ts (idx + 1) rest

/-- One rendered payment of `build_txn_payload` (lines 556–570). -/
def renderPay (ts : String) (p : Payment) : RenderedPayment :=
  let amt := roundHalfUp2 p.amount
  { timestamp := ts,
    status := if 0 ≤ amt then "Accepted" else "Denied",
    amount := amt,
    change := roundHalfUp2 (p.change.getD 0),
    tender := map_tender p.tenderType }

/-- Derived total-due source value of `build_txn_payload` (line 501). -/
def totalDueOf (tx : Tx) : ℚ :=
  let sm := tx.summary_map
  smGetD sm "TOTAL DUE"
    (smGetD sm "SUBTOTAL" 0 + smGetD sm "DISCOUNT(S)" 0 + smFirstTax sm)

/-- Model of `build_txn_payload` (lines 496–631).  `now` models
`datetime.now(timezone.utc)` (`current_ts`), `tsec` models `time.time()`;
`none` models the `ValueError` raised by `int(tx['seq'] or 1000)` on a
malformed non-empty sequence string. -/
def build_txn_payload (now : String) (tsec : ℤ) (tx : Tx) : Option TxnPayload :=
  let sm := tx.summary_map
  let subtotal := smGetD sm "SUBTOTAL" 0
  let discount := smGetD sm "DISCOUNT(S)" 0
  let tax_amt := smFirstTax sm
  let total_due := smGetD sm "TOTAL DUE" (subtotal + discount + tax_amt)
  let net_item := roundHalfUp2 (subtotal + discount)
  let tax_d := roundHalfUp2 tax_amt
  let tot_due := roundHalfUp2 total_due
  let paid := sumQ ((tx.payments.filter (fun p => decide (0 < p.amount))).map Payment.amount)
  let paid_d := roundHalfUp2 paid
  let _change := roundHalfUp2 (paid_d - tot_due)
  let items_list := renderLines tx.seq tx.ts_utc 1 (tx.items ++ tx.voids)
  let payments0 := tx.payments.filterMap
    (fun p => if roundHalfUp2 p.amount = 0 then none else some (renderPay tx.ts_utc p))
  let payments :=
    if payments0.isEmpty && decide (0 < tot_due) then
      [{ timestamp := tx.ts_utc, status := "Accepted", amount := tot_due,
         change := 0, tender := "Cash" }]
    else payments0
  let tax_arr := if 0 < tax_d then [tax_d] else []
  let has_voided_items := !tx.voids.isEmpty
  let all_items_voided :=
    has_voided_items && (tx.items ++ tx.voids).all (fun itm => itm.event == "void")
  let order_state := if all_items_voided then "Voided" else "Closed"
  let transaction_type := if has_voided_items then "Update" else "New"
  match (if tx.seq = "" then some (1000 : ℤ) else parsePyIntStr tx.seq) with
  | none => none
  | some n0 =>
    some { model := "Transaction",
           transactionGUID := tx.guid,
           transactionDateTimeStamp := now,
           transactionType := transaction_type,
           businessDate := removeChars (strTake now 10) ['-'],
           locationID := tx.store,
           locationDescription := tx.location_desc,
           deviceID := tx.terminal,
           employeeID := tx.employee_id,
           employeeFullName := tx.employee_name,
           orderNumber := if n0 ≤ 0 then tsec % 10000 else n0,
           orderState := order_state,
           orderItems := items_list,
           totalItemPrice := net_item,
           taxAmounts := tax_arr,
           orderItemCount := items_list.length,
           payments := payments }

/-- The `RefundTransaction` payload shape produced by
`build_refund_payload`. -/
structure RefundPayload where
  model : String
  transactionGUID : String
  transactionDateTimeStamp : String
  transactionType : String
  businessDate : String
  locationID : String
  locationDescription : String
  deviceID : String
  employeeID : String
  employeeFullName : String
  refundTotal : ℚ
  orderNumber : ℤ
  orderState : String
  orderItems : List RenderedItem
  totalItemPrice : ℚ
  orderItemCount : ℕ
  payments : List RenderedPayment
deriving DecidableEq

/-- Fallback refund payload value used only to name concrete witnesses. -/
def emptyRefundPayload : RefundPayload :=
  { model := "", transactionGUID := "", transactionDateTimeStamp := "",
    transactionType := "", businessDate := "", locationID := "",
    locationDescription := "", deviceID := "", employeeID := "",
    employeeFullName := "", refundTotal := 0, orderNumber := 0,
    orderState := "", orderItems := [], totalItemPrice := 0,
    orderItemCount := 0, payments := [] }

/-- The refund item loop of `build_refund_payload` (lines 637–654); note
that each emitted price is quantized. -/
def refundLines (seq ts : String) : ℕ → List Entry → List RenderedItem
  | _, [] => []
  | idx, itm :: rest =>
    { itemState := "Added", stateTimestamp := ts, itemType := "Refund",
      category := "Refund", productID := seq ++ "_" ++ toString idx,
      name := itm.name, itemPrice := roundHalfUp2 itm.price,
      quantity := itm.quantity } :: refundLines seq ts (idx + 1) rest

/-- The `raw_sub` accumulator of `build_refund_payload`: quantized price
times quantity, summed over the items. -/
def refundRawSub (items : List Entry) : ℚ :=
  items.foldl (fun acc itm => acc + roundHalfUp2 itm.price * (itm.quantity : ℚ)) 0

/-- Model of `build_refund_payload` (lines 634–682).  `none` models the
`ValueError` raised by `int(tx['seq'] or 0)` on a malformed non-empty
sequence string.  Payment amounts and the refund total are emitted raw
(no quantization in the source). -/
def build_refund_payload (tx : Tx) : Option RefundPayload :=
  let ts := tx.ts_utc
  let refund_total := sumQ (tx.payments.map Payment.amount)
  let payments := tx.payments.filterMap
    (fun p =>
      if p.amount = 0 then none
      else some { timestamp := ts, status := "Accepted", amount := p.amount,
                  change := 0, tender := map_tender p.tenderType })
  let items_list := refundLines tx.seq ts 1 tx.items
  match (if tx.seq = "" then some (0 : ℤ) else parsePyIntStr tx.seq) with
  | none => none
  | some n =>
    some { model := "RefundTransaction",
           transactionGUID := tx.guid,
           transactionDateTimeStamp := ts,
           transactionType := "New",
           businessDate := removeChars (strTake ts 10) ['-'],
           locationID := tx.store,
           locationDescription := tx.location_desc,
           deviceID := tx.terminal,
           employeeID := tx.employee_id,
           employeeFullName := tx.employee_name,
           refundTotal := refund_total,
           orderNumber := n,
           orderState := "Closed",
           orderItems := items_list,
           totalItemPrice := roundHalfUp2 (refundRawSub tx.items),
           orderItemCount := items_list.length,
           payments := payments }

/-! ## Dispatcher endpoint/builder selection (`dispatcher_worker`) -/

/-- The three remote endpoints (`CASH_URL`, `REFUND_URL`, `TXN_URL`). -/
inductive Endpoint where
  | cashOps
  | refunds
  | transactions
deriving DecidableEq

/-- The three payload builders the dispatcher can invoke. -/
inductive BuilderKind where
  | cashOp
  | refund
  | standard
deriving DecidableEq

/-- Endpoint/builder selection of `dispatcher_worker` (lines 694–717):
the operation tag is consulted first, then the refund check
(`tx['type'].lower() == 'refund'` or a non-empty all-negative item list),
and otherwise the standard transaction path. -/
def dispatcherSelect (tx : Tx) : Endpoint × BuilderKind :=
  if tx.operation ≠ "" then (Endpoint.cashOps, BuilderKind.cashOp)
  else if strLower tx.type == "refund" ||
          (!tx.items.isEmpty && tx.items.all (fun i => decide (i.price < 0))) then
    (Endpoint.refunds, BuilderKind.refund)
  else (Endpoint.transactions, BuilderKind.standard)

/-! ## Claim theorems -/

/-- Concrete standalone `PaidOut` command record used for claim C1. -/
def recC1 : CmdRec :=
  { cmd := "PaidOut", datetime := some "2024-05-01T12:00:00",
    terminal := some "1", sequence := some "77", operator := some "OP7",
    amount := some (PyVal.num 50), store := some "9999" }

/-- Claim C1 (code bug): for a transaction classified as cash-operation,
`build_cash_op_payload` does not return the `CashOperation` payload it
constructs — the function body has no `return` statement, so the call
evaluates to `None` (modelled `none`) instead of a payload whose model is
`'CashOperation'`. -/
theorem C1_cash_builder_returns_none :
    build_cash_op_payload (handleCashCmd "COM3" "2024-05-01T12:00:00" recC1) = none := rfl

/-- Claim C10: the standalone `NoSale`/`PaidOut`/`CashDrop` handler always
emits store `'1001'` and location description `'Windsor Mill 711'`, and
its output does not depend on the record's own store field. -/
theorem C10_store_and_location_hardcoded (port now : String) (rec : CmdRec) :
    (handleCashCmd port now rec).store = "1001" ∧
    (handleCashCmd port now rec).location_desc = "Windsor Mill 711" ∧
    ∀ s : Option String,
      handleCashCmd port now { rec with store := s } = handleCashCmd port now rec :=
  ⟨rfl, rfl, fun _ => rfl⟩

/-- Buffer of a cycle whose meta record carried the operation tag
`refund`, used to refute claim C3. -/
def bufC3 : Buffer :=
  { meta := some { timeStamp := some "2024-05-02T10:00:00", terminalId := some "1",
                   sequenceNumber := some "12", storeId := some "1001",
                   operatorId := some "OP5", operatorName := some "Operator Five",
                   transactionType := none, operation := some "refund" },
    items := [], voids := [], payments := [],
    summary_list := [{ description := some "TOTAL DUE", details := some "$0.00" }],
    summary_map := [("TOTAL DUE", 0)],
    operation := "refund", awaiting_cash_change := false }

/-- The transaction the assembler emits for `bufC3`. -/
def txC3 : Tx := closeCycle "COM3" "2024-05-02T10:05:00" bufC3 none

/-- Claim C3 (counterexample): a transaction classified `refund` (because
its buffer carried the operation tag `refund`) is dispatched to the
cash-operations endpoint with the cash-operation builder, not to the
refunds endpoint — the dispatcher consults the operation tag before the
classification. -/
theorem C3_counterexample_refund_to_cash :
    txC3.type = "refund" ∧
    dispatcherSelect txC3 = (Endpoint.cashOps, BuilderKind.cashOp) := ⟨rfl, rfl⟩

/-- Claim C3 (amended): endpoint and builder are selected by the operation
tag first and the classification second: any transaction with a non-empty
operation tag (which includes every cash-operation transaction) goes to
the cash-operations endpoint with the cash-operation builder; a
transaction without an operation tag goes to the refunds endpoint with the
refund builder when its classification is refund or its item list is
non-empty with all prices negative, and to the transactions endpoint with
the standard builder otherwise. -/
theorem C3_amended_routing (tx : Tx) :
    (tx.operation ≠ "" →
      dispatcherSelect tx = (Endpoint.cashOps, BuilderKind.cashOp)) ∧
    (tx.operation = "" →
      (strLower tx.type = "refund" ∨ (tx.items ≠ [] ∧ ∀ i ∈ tx.items, i.price < 0)) →
      dispatcherSelect tx = (Endpoint.refunds, BuilderKind.refund)) ∧
    (tx.operation = "" → strLower tx.type ≠ "refund" →
      ¬(tx.items ≠ [] ∧ ∀ i ∈ tx.items, i.price < 0) →
      dispatcherSelect tx = (Endpoint.transactions, BuilderKind.standard)) := by
  refine ⟨fun hop => ?_, fun hop hr => ?_, fun hop hnr hni => ?_⟩
  · simp [dispatcherSelect, hop]
  · have hb : (strLower tx.type == "refund" ||
        (!tx.items.isEmpty && tx.items.all (fun i => decide (i.price < 0)))) = true := by
      rcases hr with h | ⟨hne, hall⟩
      · simp [h]
      · simp [List.isEmpty_eq_false.mpr hne, List.all_eq_true]
        exact Or.inr hall
    simp [dispatcherSelect, hop, hb]
  · have hb : (strLower tx.type == "refund" ||
        (!tx.items.isEmpty && tx.items.all (fun i => decide (i.price < 0)))) = false := by
      apply Bool.eq_false_iff.mpr
      intro h
      rw [Bool.or_eq_true, Bool.and_eq_true] at h
      rcases h with h | ⟨hne, hall⟩
      · exact hnr (by simpa using h)
      · refine hni ⟨List.isEmpty_eq_false.mp (by simpa using hne), fun i hi => ?_⟩
        simpa using List.all_eq_true.mp hall i hi
    simp [dispatcherSelect, hop, hb]

/-- Concrete standalone `NoSale` record used in the witness for the
amended claim C3. -/
def recC3w : CmdRec :=
  { cmd := "NoSale", datetime := none, terminal := none, sequence := none,
    operator := none, amount := none, store := none }

/-- Witness for the amended claim C3: a standalone no-sale transaction
(non-empty operation tag `nosale`) is routed to the cash-operations
endpoint with the cash-operation builder. -/
theorem C3_amended_routing_witness :
    dispatcherSelect (handleCashCmd "COM4" "2024-05-01T09:00:00" recC3w) =
      (Endpoint.cashOps, BuilderKind.cashOp) :=
  (C3_amended_routing (handleCashCmd "COM4" "2024-05-01T09:00:00" recC3w)).1 (by decide)

/-- Claim C4: cycle-close classification follows the priority: explicit
cash-operation tag (`nosale`/`paidout`/`cashdrop`) first, then any
negative accumulated item price or an explicit refund tag (buffer
operation or meta `transactionType` equal to `refund`), and
`standard-sale` otherwise. -/
theorem C4_classification_priority (port now : String) (buf : Buffer) (recTs : Option String) :
    (closeCycle port now buf recTs).type =
      if strLower buf.operation ∈ (["nosale", "paidout", "cashdrop"] : List String) then
        "cash-operation"
      else if (∃ i ∈ buf.items, i.price < 0) ∨ strLower buf.operation = "refund" ∨
              strLower ((buf.meta.getD emptyMeta).transactionType.getD "") = "refund" then
        "refund"
      else "standard-sale" := by
  have hty : (closeCycle port now buf recTs).type =
      (if strLower buf.operation ∈ (["nosale", "paidout", "cashdrop"] : List String) then
        "cash-operation"
      else if (buf.items.any (fun i => decide (i.price < 0)) ||
               (strLower buf.operation == "refund") ||
               (strLower ((buf.meta.getD emptyMeta).transactionType.getD "") == "refund")) = true then
        "refund"
      else "standard-sale") := rfl
  rw [hty]
  by_cases hc : strLower buf.operation ∈ (["nosale", "paidout", "cashdrop"] : List String)
  · rw [if_pos hc, if_pos hc]
  · rw [if_neg hc, if_neg hc]
    have hbridge : (buf.items.any (fun i => decide (i.price < 0)) ||
        (strLower buf.operation == "refund") ||
        (strLower ((buf.meta.getD emptyMeta).transactionType.getD "") == "refund")) = true ↔
        ((∃ i ∈ buf.items, i.price < 0) ∨ strLower buf.operation = "refund" ∨
         strLower ((buf.meta.getD emptyMeta).transactionType.getD "") = "refund") := by
      simp [List.any_eq_true, or_assoc]
    by_cases hr : (∃ i ∈ buf.items, i.price < 0) ∨ strLower buf.operation = "refund" ∨
        strLower ((buf.meta.getD emptyMeta).transactionType.getD "") = "refund"
    · rw [if_pos (hbridge.mpr hr), if_pos hr]
    · rw [if_neg (fun hb => hr (hbridge.mp hb)), if_neg hr]

/-- A second summary with no visible `CHANGE` value leaves the payment
list untouched. -/
theorem foldl_applyChange_nil (summ : List SummEntry) (pays : List Payment)
    (h : summ.filterMap changeVal = []) :
    summ.foldl applyChange pays = pays := by
  induction summ generalizing pays with
  | nil => rfl
  | cons e rest ih =>
    rw [List.foldl_cons]
    cases hv : changeVal e with
    | none =>
      rw [List.filterMap_cons_none hv] at h
      rw [show applyChange pays e = pays by unfold applyChange; rw [hv]]
      exact ih pays h
    | some v =>
      rw [List.filterMap_cons_some hv] at h
      exact absurd h (by simp)

/-- A second summary whose only visible `CHANGE` value is `v` applies
exactly one first-cash update with `v`. -/
theorem foldl_applyChange_single (summ : List SummEntry) (v : ℚ) (pays : List Payment)
    (h : summ.filterMap changeVal = [v]) :
    summ.foldl applyChange pays = updateFirstCash pays v := by
  induction summ generalizing pays with
  | nil => exact absurd h (by simp)
  | cons e rest ih =>
    rw [List.foldl_cons]
    cases hv : changeVal e with
    | none =>
      rw [List.filterMap_cons_none hv] at h
      rw [show applyChange pays e = pays by unfold applyChange; rw [hv]]
      exact ih pays h
    | some w =>
      rw [List.filterMap_cons_some hv] at h
      have hw : w = v := by injection h
      have hrest : rest.filterMap changeVal = [] := by injection h
      rw [show applyChange pays e = updateFirstCash pays w by unfold applyChange; rw [hv]]
      rw [hw, foldl_applyChange_nil rest (updateFirstCash pays v) hrest]

/-- `updateFirstCash` on a list split at its first cash payment updates
exactly that payment's change amount. -/
theorem updateFirstCash_append (ps₁ : List Payment) (p : Payment) (ps₂ : List Payment)
    (v : ℚ) (h₁ : ∀ q ∈ ps₁, q.is_cash = false) (hp : p.is_cash = true) :
    updateFirstCash (ps₁ ++ p :: ps₂) v = ps₁ ++ { p with change := some v } :: ps₂ := by
  induction ps₁ with
  | nil =>
    rw [List.nil_append, List.nil_append]
    unfold updateFirstCash
    rw [if_pos hp]
  | cons q qs ih =>
    have hq : q.is_cash = false := h₁ q (List.mem_cons_self q qs)
    rw [List.cons_append, List.cons_append]
    unfold updateFirstCash
    rw [if_neg (by rw [hq]; exact Bool.false_ne_true)]
    rw [ih (fun r hr => h₁ r (List.mem_cons_of_mem q hr))]

/-- Claim C2: while a cycle's awaiting-cash-change flag is set and a first
summary is already stored, a second transaction-summary record whose only
visible `CHANGE` value is `v` attaches `v` as the change amount of the
first cash payment of the buffer, clears the flag, and leaves everything
else — in particular the first summary map and list — unchanged. -/
theorem C2_second_summary_change (buf : Buffer) (summ : List SummEntry) (v : ℚ)
    (ps₁ : List Payment) (p : Payment) (ps₂ : List Payment)
    (hfirst : buf.summary_list ≠ [])
    (hflag : buf.awaiting_cash_change = true)
    (hch : summ.filterMap changeVal = [v])
    (hpay : buf.payments = ps₁ ++ p :: ps₂)
    (hnc : ∀ q ∈ ps₁, q.is_cash = false)
    (hc : p.is_cash = true) :
    handleSummaryRecord buf summ =
      { buf with payments := ps₁ ++ { p with change := some v } :: ps₂,
                 awaiting_cash_change := false } := by
  unfold handleSummaryRecord
  rw [if_neg (by simpa [List.isEmpty_iff] using hfirst), if_pos hflag]
  unfold handleSecondSummary
  rw [foldl_applyChange_single summ v buf.payments hch, hpay,
      updateFirstCash_append ps₁ p ps₂ v hnc hc]

/-- Concrete non-cash payment for the claim C2 witness. -/
def pC2card : Payment := { amount := 3, tenderType := "VISA", is_cash := false, change := none }

/-- Concrete cash payment for the claim C2 witness. -/
def pC2cash : Payment := { amount := 10, tenderType := "CASH", is_cash := true, change := none }

/-- Concrete second transaction summary for the claim C2 witness. -/
def summC2 : List SummEntry := [{ description := some "CHANGE", details := some "$1.00" }]

/-- The change value announced by `summC2`. -/
def vC2 : ℚ := (parsePyFloat (cleanedDetails "$1.00")).getD 0

/-- Concrete open buffer, with first summary stored and awaiting cash
change, for the claim C2 witness. -/
def bufC2 : Buffer :=
  { meta := none, items := [], voids := [],
    payments := [pC2card] ++ pC2cash :: [],
    summary_list := [{ description := some "SUBTOTAL", details := some "$9.00" }],
    summary_map := [("SUBTOTAL", 9)],
    operation := "", awaiting_cash_change := true }

/-- Witness for claim C2 at a concrete buffer and second summary. -/
theorem C2_second_summary_change_witness :
    handleSummaryRecord bufC2 summC2 =
      { bufC2 with payments := [pC2card] ++ { pC2cash with change := some vC2 } :: [],
                   awaiting_cash_change := false } :=
  C2_second_summary_change bufC2 summC2 vC2 [pC2card] pC2cash []
    (by decide) rfl rfl rfl (by decide) rfl

/-- Claim C7: in the rendered standard-sale payload, the order state is
`Voided` exactly when there is at least one void and every order line
(items and voids together) is a void, and `Closed` otherwise; the
transaction type is `Update` exactly when a void is present, and `New`
otherwise. -/
theorem C7_order_state_and_type (now : String) (tsec : ℤ) (tx : Tx) (pl : TxnPayload)
    (h : build_txn_payload now tsec tx = some pl) :
    (pl.orderState = "Voided" ↔
      tx.voids ≠ [] ∧ ∀ itm ∈ tx.items ++ tx.voids, itm.event = "void") ∧
    (pl.orderState = "Voided" ∨ pl.orderState = "Closed") ∧
    (pl.transactionType = "Update" ↔ tx.voids ≠ []) ∧
    (pl.transactionType = "Update" ∨ pl.transactionType = "New") := by
  unfold build_txn_payload at h
  cases hs : (if tx.seq = "" then some (1000 : ℤ) else parsePyIntStr tx.seq) with
  | none => rw [hs] at h; exact Option.noConfusion h
  | some n0 =>
    simp only [hs, Option.some_inj] at h
    subst h
    by_cases hv : tx.voids = []
    · have hb1 : (!tx.voids.isEmpty) = false := by simp [hv]
      simp [hb1, hv]
    · have hb1 : (!tx.voids.isEmpty) = true := by simp [hv]
      by_cases hall : ∀ itm ∈ tx.items ++ tx.voids, itm.event = "void"
      · have hb2 : (tx.items ++ tx.voids).all (fun itm => itm.event == "void") = true := by
          simp only [List.all_eq_true, beq_iff_eq]
          exact hall
        simp [hb1, hb2, hv]
        exact fun itm hm => hall itm (List.mem_append.mpr hm)
      · have hb2 : (tx.items ++ tx.voids).all (fun itm => itm.event == "void") = false := by
          rw [Bool.eq_false_iff]
          intro hb
          rw [List.all_eq_true] at hb
          exact hall fun itm hm => by simpa using hb itm hm
        simp [hb1, hb2, hv]
        push_neg at hall
        obtain ⟨itm, hm, hne⟩ := hall
        exact ⟨itm, List.mem_append.mp hm, hne⟩

/-- Concrete all-void standard-sale transaction for the claim C7
witness. -/
def txC7 : Tx :=
  { guid := "g7", seq := "", type := "standard-sale", operation := "",
    amount := none, store := "1001", location_desc := "Windsor Mill 711",
    terminal := "1", ts_local := "2024-05-03T08:00:00",
    ts_utc := "2024-05-03T08:00:00", operator := "OP5", employee_id := "OP5",
    employee_name := "Operator Five", items := [], payments := [],
    summary_map := [],
    voids := [{ name := "Coffee", price := 2, quantity := 1, event := "void" }] }

/-- The payload the renderer produces for `txC7`. -/
def plC7 : TxnPayload :=
  (build_txn_payload "2024-05-03T08:01:00" 0 txC7).getD emptyTxnPayload

/-- Witness for claim C7 at a concrete all-void transaction. -/
theorem C7_order_state_and_type_witness :
    (plC7.orderState = "Voided" ↔
      txC7.voids ≠ [] ∧ ∀ itm ∈ txC7.items ++ txC7.voids, itm.event = "void") ∧
    (plC7.orderState = "Voided" ∨ plC7.orderState = "Closed") ∧
    (plC7.transactionType = "Update" ↔ txC7.voids ≠ []) ∧
    (plC7.transactionType = "Update" ∨ plC7.transactionType = "New") :=
  C7_order_state_and_type "2024-05-03T08:01:00" 0 txC7 plC7 rfl

/-- The payment loop of `build_txn_payload` is the filter of the non-zero
rounded amounts, rendered in order. -/
theorem filterMap_renderPay_eq (ts : String) (l : List Payment) :
    l.filterMap
      (fun p => if roundHalfUp2 p.amount = 0 then none else some (renderPay ts p)) =
    (l.filter (fun p => decide (roundHalfUp2 p.amount ≠ 0))).map (renderPay ts) := by
  induction l with
  | nil => rfl
  | cons a l ih =>
    by_cases ha : roundHalfUp2 a.amount = 0
    · rw [List.filterMap_cons_none (by rw [if_pos ha]),
          List.filter_cons_of_neg (by simp [ha]), ih]
    · rw [List.filterMap_cons_some (by rw [if_neg ha]),
          List.filter_cons_of_pos (by simp [ha]), List.map_cons, ih]

/-- Claim C8: payments whose rounded amount is `0` are dropped from the
standard-sale payload; when every payment rounds to `0` (in particular
when there is none) and the rounded total due is positive, exactly one
synthetic Cash payment of the total due with change `0` is substituted;
when the rounded total due is not positive, the payment list is empty. -/
theorem C8_zero_payments_and_synthetic (now : String) (tsec : ℤ) (tx : Tx) (pl : TxnPayload)
    (h : build_txn_payload now tsec tx = some pl) :
    ((∃ p ∈ tx.payments, roundHalfUp2 p.amount ≠ 0) →
      pl.payments =
        (tx.payments.filter (fun p => decide (roundHalfUp2 p.amount ≠ 0))).map
          (renderPay tx.ts_utc)) ∧
    ((∀ p ∈ tx.payments, roundHalfUp2 p.amount = 0) →
      0 < roundHalfUp2 (totalDueOf tx) →
      pl.payments = [{ timestamp := tx.ts_utc, status := "Accepted",
                       amount := roundHalfUp2 (totalDueOf tx), change := 0,
                       tender := "Cash" }]) ∧
    ((∀ p ∈ tx.payments, roundHalfUp2 p.amount = 0) →
      ¬(0 < roundHalfUp2 (totalDueOf tx)) →
      pl.payments = []) := by
  unfold build_txn_payload at h
  cases hs : (if tx.seq = "" then some (1000 : ℤ) else parsePyIntStr tx.seq) with
  | none => rw [hs] at h; exact Option.noConfusion h
  | some n0 =>
    simp only [hs, Option.some_inj] at h
    subst h
    unfold totalDueOf
    refine ⟨fun hex => ?_, fun hall hpos => ?_, fun hall hneg => ?_⟩
    · have hne : (tx.payments.filterMap
          (fun p => if roundHalfUp2 p.amount = 0 then none
                    else some (renderPay tx.ts_utc p))).isEmpty = false := by
        rw [filterMap_renderPay_eq]
        obtain ⟨p, hp, hnz⟩ := hex
        simp only [List.isEmpty_eq_false, ne_eq, List.map_eq_nil_iff]
        intro hfe
        rw [List.filter_eq_nil_iff] at hfe
        exact hfe p hp (by simpa using hnz)
      simp only [hne, Bool.false_and, if_neg Bool.false_ne_true]
      exact filterMap_renderPay_eq tx.ts_utc tx.payments
    · have hfe : tx.payments.filterMap
          (fun p => if roundHalfUp2 p.amount = 0 then none
                    else some (renderPay tx.ts_utc p)) = [] := by
        rw [filterMap_renderPay_eq, List.map_eq_nil_iff, List.filter_eq_nil_iff]
        intro p hp
        simp [hall p hp]
      simp only [hfe, List.isEmpty_nil, Bool.true_and, decide_eq_true_eq, if_pos hpos]
    · have hfe : tx.payments.filterMap
          (fun p => if roundHalfUp2 p.amount = 0 then none
                    else some (renderPay tx.ts_utc p)) = [] := by
        rw [filterMap_renderPay_eq, List.map_eq_nil_iff, List.filter_eq_nil_iff]
        intro p hp
        simp [hall p hp]
      simp only [hfe, List.isEmpty_nil, Bool.true_and, decide_eq_true_eq, if_neg hneg]

/-- Scenario-D transaction for the claim C8 witness: `TOTAL DUE` 5.00 in
the summary map and no payment ever received. -/
def txC8 : Tx :=
  { guid := "g8", seq := "", type := "standard-sale", operation := "",
    amount := none, store := "1001", location_desc := "Windsor Mill 711",
    terminal := "2", ts_local := "2024-05-04T09:00:00",
    ts_utc := "2024-05-04T09:00:00", operator := "OP5", employee_id := "OP5",
    employee_name := "Operator Five",
    items := [{ name := "Coffee", price := 5, quantity := 1, event := "add" }],
    payments := [], summary_map := [("TOTAL DUE", 5)], voids := [] }

/-- The payload the renderer produces for `txC8`. -/
def plC8 : TxnPayload :=
  (build_txn_payload "2024-05-04T09:01:00" 0 txC8).getD emptyTxnPayload

/-- Witness for claim C8: with no payments and a positive total due, the
rendered payload carries exactly the synthetic Cash payment. -/
theorem C8_zero_payments_and_synthetic_witness :
    plC8.payments = [{ timestamp := txC8.ts_utc, status := "Accepted",
                       amount := roundHalfUp2 (totalDueOf txC8), change := 0,
                       tender := "Cash" }] :=
  (C8_zero_payments_and_synthetic "2024-05-04T09:01:00" 0 txC8 plC8 rfl).2.1
    (by simp [txC8])
    (by rw [show totalDueOf txC8 = 5 from rfl]; norm_num [roundHalfUp2, halfUpZ])

/-- Rounding a length-preserving rendering: `renderLines` keeps the list
length. -/
theorem renderLines_length (seq ts : String) (k : ℕ) (l : List Entry) :
    (renderLines seq ts k l).length = l.length := by
  induction l generalizing k with
  | nil => rfl
  | cons a l ih => simp [renderLines, ih]

/-- The `i`-th rendered order line is the rendering of the `i`-th entry,
at running index `k + i`. -/
theorem renderLines_get (seq ts : String) (k : ℕ) (l : List Entry) (i : ℕ)
    (hi : i < l.length) (hj : i < (renderLines seq ts k l).length) :
    (renderLines seq ts k l).get ⟨i, hj⟩ =
      renderLine seq ts (k + i) (l.get ⟨i, hi⟩) := by
  induction l generalizing k i with
  | nil => exact absurd hi (by simp)
  | cons a l ih =>
    cases i with
    | zero => simp [renderLines]
    | succ m =>
      have hm : m < l.length := Nat.lt_of_succ_lt_succ hi
      have hj1 : m < (renderLines seq ts (k + 1) l).length := by
        rw [renderLines_length]; exact hm
      show (renderLine seq ts k a :: renderLines seq ts (k + 1) l).get ⟨m + 1, hj⟩ = _
      rw [List.get_cons_succ]
      rw [ih (k + 1) m hm hj1]
      show renderLine seq ts (k + 1 + m) _ = renderLine seq ts (k + (m + 1)) _
      rw [show k + 1 + m = k + (m + 1) by omega]
      rfl

/-- Claim C9 (amended): an order line whose name contains `PROMO`
(case-insensitive) or whose price is negative is rendered with category
`Promotion`; its rendered price is the negation of the entry price only
when the entry price is strictly positive and the line is not a void —
a void line or a zero-price line keeps its price unchanged (then
rounded). -/
theorem C9_amended_promo_lines (now : String) (tsec : ℤ) (tx : Tx) (pl : TxnPayload)
    (h : build_txn_payload now tsec tx = some pl)
    (i : ℕ) (hi : i < (tx.items ++ tx.voids).length)
    (hp : strHas (strUpper ((tx.items ++ tx.voids).get ⟨i, hi⟩).name) "PROMO" = true ∨
          ((tx.items ++ tx.voids).get ⟨i, hi⟩).price < 0) :
    ∃ hj : i < pl.orderItems.length,
      (pl.orderItems.get ⟨i, hj⟩).category = "Promotion" ∧
      (pl.orderItems.get ⟨i, hj⟩).itemPrice =
        roundHalfUp2
          (if 0 < ((tx.items ++ tx.voids).get ⟨i, hi⟩).price ∧
              ((tx.items ++ tx.voids).get ⟨i, hi⟩).event ≠ "void" then
            -((tx.items ++ tx.voids).get ⟨i, hi⟩).price
          else ((tx.items ++ tx.voids).get ⟨i, hi⟩).price) := by
  unfold build_txn_payload at h
  cases hs : (if tx.seq = "" then some (1000 : ℤ) else parsePyIntStr tx.seq) with
  | none => rw [hs] at h; exact Option.noConfusion h
  | some n0 =>
    simp only [hs, Option.some_inj] at h
    have hOI : pl.orderItems = renderLines tx.seq tx.ts_utc 1 (tx.items ++ tx.voids) := by
      rw [← h]
    have hlen : i < (renderLines tx.seq tx.ts_utc 1 (tx.items ++ tx.voids)).length := by
      rw [renderLines_length]; exact hi
    rw [hOI]
    refine ⟨hlen, ?_⟩
    rw [renderLines_get tx.seq tx.ts_utc 1 (tx.items ++ tx.voids) i hi hlen]
    set itm := (tx.items ++ tx.voids).get ⟨i, hi⟩ with hitm
    have hpromo : (strHas (strUpper itm.name) "PROMO" || decide (itm.price < 0)) = true := by
      rcases hp with hcase | hcase
      · simp [hcase]
      · simp [hcase]
    constructor
    · simp [renderLine, hpromo]
    · by_cases hcond : 0 < itm.price ∧ itm.event ≠ "void"
      · have hb : ((strHas (strUpper itm.name) "PROMO" || decide (itm.price < 0)) &&
            decide (0 < itm.price) && !(itm.event == "void")) = true := by
          simp [hpromo, hcond.1, hcond.2]
        simp only [renderLine, hb]
        rw [if_pos hcond]
        simp [abs_of_pos hcond.1]
      · have hb : ((strHas (strUpper itm.name) "PROMO" || decide (itm.price < 0)) &&
            decide (0 < itm.price) && !(itm.event == "void")) = false := by
          apply Bool.eq_false_iff.mpr
          intro hbt
          rw [Bool.and_eq_true, Bool.and_eq_true] at hbt
          obtain ⟨⟨_, h2⟩, h3⟩ := hbt
          exact hcond ⟨by simpa using h2, by simpa using h3⟩
        simp only [renderLine, hb]
        rw [if_neg hcond]
        simp

/-- Zero is fixed by 2-decimal rounding. -/
theorem roundHalfUp2_zero : roundHalfUp2 0 = 0 := by
  norm_num [roundHalfUp2, halfUpZ]

/-- Standard-sale transaction with a single zero-price `PROMO` line, used
to refute claim C9. -/
def txC9 : Tx :=
  { guid := "g9", seq := "", type := "standard-sale", operation := "",
    amount := none, store := "1001", location_desc := "Windsor Mill 711",
    terminal := "3", ts_local := "2024-05-05T10:00:00",
    ts_utc := "2024-05-05T10:00:00", operator := "OP5", employee_id := "OP5",
    employee_name := "Operator Five",
    items := [{ name := "PROMO", price := 0, quantity := 1, event := "add" }],
    payments := [], summary_map := [], voids := [] }

/-- Claim C9 (counterexample): the line named `PROMO` with price `0` is
rendered with category `Promotion` but its rendered price is `0`, which is
not negative — the price is only negated for strictly positive non-void
promo lines. -/
theorem C9_counterexample_zero_price_promo :
    strHas (strUpper "PROMO") "PROMO" = true ∧
    (build_txn_payload "2024-05-05T10:01:00" 0 txC9).map
        (fun pl => pl.orderItems.map (fun r => (r.category, r.itemPrice))) =
      some [("Promotion", 0)] ∧
    ¬((0 : ℚ) < 0) := by
  refine ⟨by decide, ?_, by norm_num⟩
  have hsh : strHas (strUpper "PROMO") "PROMO" = true := by decide
  simp [build_txn_payload, txC9, renderLines, renderLine, hsh, roundHalfUp2_zero]

/-- Standard-sale transaction with a positive-price promo line, used in
the witness for the amended claim C9. -/
def txC9w : Tx :=
  { guid := "g9w", seq := "", type := "standard-sale", operation := "",
    amount := none, store := "1001", location_desc := "Windsor Mill 711",
    terminal := "3", ts_local := "2024-05-05T12:00:00",
    ts_utc := "2024-05-05T12:00:00", operator := "OP5", employee_id := "OP5",
    employee_name := "Operator Five",
    items := [{ name := "PROMO Combo", price := 3, quantity := 2, event := "add" }],
    payments := [], summary_map := [], voids := [] }

/-- The payload the renderer produces for `txC9w`. -/
def plC9w : TxnPayload :=
  (build_txn_payload "2024-05-05T12:01:00" 0 txC9w).getD emptyTxnPayload

/-- Witness for the amended claim C9 at a concrete positive-price promo
line. -/
theorem C9_amended_promo_lines_witness :
    ∃ hj : 0 < plC9w.orderItems.length,
      (plC9w.orderItems.get ⟨0, hj⟩).category = "Promotion" ∧
      (plC9w.orderItems.get ⟨0, hj⟩).itemPrice =
        roundHalfUp2
          (if 0 < ((txC9w.items ++ txC9w.voids).get
                ⟨0, by decide⟩).price ∧
              ((txC9w.items ++ txC9w.voids).get ⟨0, by decide⟩).event ≠ "void" then
            -((txC9w.items ++ txC9w.voids).get ⟨0, by decide⟩).price
          else ((txC9w.items ++ txC9w.voids).get ⟨0, by decide⟩).price) :=
  C9_amended_promo_lines "2024-05-05T12:01:00" 0 txC9w plC9w rfl 0 (by decide)
    (Or.inl (by decide))

/-- Every rendered standard-sale order line carries a price fixed by
2-decimal rounding. -/
theorem renderLines_price_rounded (seq ts : String) (k : ℕ) (l : List Entry) :
    ∀ r ∈ renderLines seq ts k l, roundHalfUp2 r.itemPrice = r.itemPrice := by
  induction l generalizing k with
  | nil => simp [renderLines]
  | cons a l ih =>
    intro r hr
    rw [show renderLines seq ts k (a :: l) =
        renderLine seq ts k a :: renderLines seq ts (k + 1) l from rfl] at hr
    rcases List.mem_cons.mp hr with hcase | hcase
    · subst hcase
      exact roundHalfUp2_idem _
    · exact ih (k + 1) r hcase

/-- Every rendered refund order line carries a price fixed by 2-decimal
rounding. -/
theorem refundLines_price_rounded (seq ts : String) (k : ℕ) (l : List Entry) :
    ∀ r ∈ refundLines seq ts k l, roundHalfUp2 r.itemPrice = r.itemPrice := by
  induction l generalizing k with
  | nil => simp [refundLines]
  | cons a l ih =>
    intro r hr
    rw [show refundLines seq ts k (a :: l) =
        { itemState := "Added", stateTimestamp := ts, itemType := "Refund",
          category := "Refund", productID := seq ++ "_" ++ toString k,
          name := a.name, itemPrice := roundHalfUp2 a.price,
          quantity := a.quantity } :: refundLines seq ts (k + 1) l from rfl] at hr
    rcases List.mem_cons.mp hr with hcase | hcase
    · subst hcase
      exact roundHalfUp2_idem _
    · exact ih (k + 1) r hcase

/-- Every payment kept by the standard-sale payment loop is the rendering
of some source payment. -/
theorem mem_filterMap_renderPay (ts : String) (l : List Payment) (q : RenderedPayment)
    (hq : q ∈ l.filterMap
      (fun p => if roundHalfUp2 p.amount = 0 then none else some (renderPay ts p))) :
    ∃ p, q = renderPay ts p := by
  rw [List.mem_filterMap] at hq
  obtain ⟨p, _, hpq⟩ := hq
  by_cases hz : roundHalfUp2 p.amount = 0
  · rw [if_pos hz] at hpq
    exact Option.noConfusion hpq
  · rw [if_neg hz] at hpq
    exact ⟨p, (Option.some.inj hpq).symm⟩

/-- The refund payment loop emits the raw (unrounded) amounts of the
non-zero payments, in order. -/
theorem refund_payments_amounts (ts : String) (l : List Payment) :
    (l.filterMap (fun p =>
        if p.amount = 0 then none
        else some ({ timestamp := ts, status := "Accepted", amount := p.amount,
                     change := 0, tender := map_tender p.tenderType } : RenderedPayment))).map
      RenderedPayment.amount =
    (l.filter (fun p => decide (p.amount ≠ 0))).map Payment.amount := by
  induction l with
  | nil => rfl
  | cons a l ih =>
    by_cases ha : a.amount = 0
    · rw [List.filterMap_cons_none (by rw [if_pos ha]),
          List.filter_cons_of_neg (by simp [ha]), ih]
    · rw [List.filterMap_cons_some (by rw [if_neg ha]),
          List.filter_cons_of_pos (by simp [ha]), List.map_cons, List.map_cons, ih]

/-- Claim C6 (amended): in the standard-sale payload every monetary field
is a 2-decimal round-half-up value of its source (net item total and tax
are the rounded summary-map values; every rendered item price, payment
amount and change is fixed by rounding); in the refund payload the item
prices and the order total are rounded, but the refund total and the
payment amounts are emitted unrounded — the raw sum and the raw non-zero
amounts respectively. -/
theorem C6_amended_rounding :
    (∀ (now : String) (tsec : ℤ) (tx : Tx) (pl : TxnPayload),
      build_txn_payload now tsec tx = some pl →
      pl.totalItemPrice =
        roundHalfUp2 (smGetD tx.summary_map "SUBTOTAL" 0 +
          smGetD tx.summary_map "DISCOUNT(S)" 0) ∧
      (∀ t ∈ pl.taxAmounts, t = roundHalfUp2 (smFirstTax tx.summary_map)) ∧
      (∀ r ∈ pl.orderItems, roundHalfUp2 r.itemPrice = r.itemPrice) ∧
      (∀ q ∈ pl.payments, roundHalfUp2 q.amount = q.amount ∧
        roundHalfUp2 q.change = q.change)) ∧
    (∀ (tx : Tx) (pl : RefundPayload),
      build_refund_payload tx = some pl →
      (∀ r ∈ pl.orderItems, roundHalfUp2 r.itemPrice = r.itemPrice) ∧
      roundHalfUp2 pl.totalItemPrice = pl.totalItemPrice ∧
      pl.refundTotal = sumQ (tx.payments.map Payment.amount) ∧
      pl.payments.map RenderedPayment.amount =
        (tx.payments.filter (fun p => decide (p.amount ≠ 0))).map Payment.amount) := by
  constructor
  · intro now tsec tx pl h
    unfold build_txn_payload at h
    cases hs : (if tx.seq = "" then some (1000 : ℤ) else parsePyIntStr tx.seq) with
    | none => rw [hs] at h; exact Option.noConfusion h
    | some n0 =>
      simp only [hs, Option.some_inj] at h
      have hTot : pl.totalItemPrice =
          roundHalfUp2 (smGetD tx.summary_map "SUBTOTAL" 0 +
            smGetD tx.summary_map "DISCOUNT(S)" 0) := by
        rw [← h]
      have hTax : pl.taxAmounts =
          (if 0 < roundHalfUp2 (smFirstTax tx.summary_map) then
            [roundHalfUp2 (smFirstTax tx.summary_map)]
          else []) := by
        rw [← h]
      have hItems : pl.orderItems = renderLines tx.seq tx.ts_utc 1 (tx.items ++ tx.voids) := by
        rw [← h]
      have hPay : pl.payments =
          (if (tx.payments.filterMap
                (fun p => if roundHalfUp2 p.amount = 0 then none
                          else some (renderPay tx.ts_utc p))).isEmpty &&
              decide (0 < roundHalfUp2 (smGetD tx.summary_map "TOTAL DUE"
                (smGetD tx.summary_map "SUBTOTAL" 0 +
                 smGetD tx.summary_map "DISCOUNT(S)" 0 +
                 smFirstTax tx.summary_map))) then
            [{ timestamp := tx.ts_utc, status := "Accepted",
               amount := roundHalfUp2 (smGetD tx.summary_map "TOTAL DUE"
                 (smGetD tx.summary_map "SUBTOTAL" 0 +
                  smGetD tx.summary_map "DISCOUNT(S)" 0 +
                  smFirstTax tx.summary_map)),
               change := 0, tender := "Cash" }]
          else tx.payments.filterMap
            (fun p => if roundHalfUp2 p.amount = 0 then none
                      else some (renderPay tx.ts_utc p))) := by
        rw [← h]
      refine ⟨hTot, ?_, ?_, ?_⟩
      · intro t ht
        rw [hTax] at ht
        split_ifs at ht with hpos
        · rw [List.mem_singleton] at ht
          exact ht
        · exact absurd ht (List.not_mem_nil t)
      · rw [hItems]
        exact renderLines_price_rounded _ _ _ _
      · intro q hq
        rw [hPay] at hq
        split_ifs at hq with hb
        · rw [List.mem_singleton] at hq
          subst hq
          exact ⟨roundHalfUp2_idem _, roundHalfUp2_zero⟩
        · obtain ⟨p, hp⟩ := mem_filterMap_renderPay tx.ts_utc tx.payments q hq
          subst hp
          exact ⟨roundHalfUp2_idem _, roundHalfUp2_idem _⟩
  · intro tx pl h
    unfold build_refund_payload at h
    cases hs : (if tx.seq = "" then some (0 : ℤ) else parsePyIntStr tx.seq) with
    | none => rw [hs] at h; exact Option.noConfusion h
    | some n =>
      simp only [hs, Option.some_inj] at h
      subst h
      exact ⟨refundLines_price_rounded _ _ _ _, roundHalfUp2_idem _, rfl,
             refund_payments_amounts _ _⟩

/-- Refund transaction with a payment amount of `1.005` dollars, used to
refute claim C6. -/
def txC6 : Tx :=
  { guid := "g6", seq := "", type := "refund", operation := "",
    amount := none, store := "1001", location_desc := "Windsor Mill 711",
    terminal := "1", ts_local := "2024-05-06T11:00:00",
    ts_utc := "2024-05-06T11:00:00", operator := "OP5", employee_id := "OP5",
    employee_name := "Operator Five",
    items := [{ name := "Soda", price := -(201 / 200), quantity := 1, event := "add" }],
    payments := [{ amount := 201 / 200, tenderType := "CASH", is_cash := true,
                   change := none }],
    summary_map := [], voids := [] }

/-- Claim C6 (counterexample): the refund total of the rendered refund
payload is the raw payment sum `1.005`, not its round-half-up value
`1.01` — the refund builder never quantizes the refund total or the
payment amounts. -/
theorem C6_counterexample_refund_total_unrounded :
    (build_refund_payload txC6).map RefundPayload.refundTotal = some (201 / 200) ∧
    roundHalfUp2 (201 / 200) = 101 / 100 ∧
    (201 / 200 : ℚ) ≠ 101 / 100 := by
  refine ⟨?_, ?_, by norm_num⟩
  · simp [build_refund_payload, txC6, sumQ]
  · norm_num [roundHalfUp2, halfUpZ]

/-- Refund transaction used in the witness for the amended claim C6. -/
def txC6w : Tx :=
  { guid := "g6w", seq := "", type := "refund", operation := "",
    amount := none, store := "1001", location_desc := "Windsor Mill 711",
    terminal := "1", ts_local := "2024-05-06T12:00:00",
    ts_utc := "2024-05-06T12:00:00", operator := "OP5", employee_id := "OP5",
    employee_name := "Operator Five",
    items := [{ name := "Juice", price := -2, quantity := 1, event := "add" }],
    payments := [{ amount := 2, tenderType := "CASH", is_cash := true,
                   change := none }],
    summary_map := [], voids := [] }

/-- The payload the refund builder produces for `txC6w`. -/
def plC6w : RefundPayload :=
  (build_refund_payload txC6w).getD emptyRefundPayload

/-- Witness for the amended claim C6 at a concrete refund transaction:
the refund total is the raw payment sum. -/
theorem C6_amended_rounding_witness :
    plC6w.refundTotal = sumQ (txC6w.payments.map Payment.amount) :=
  (C6_amended_rounding.2 txC6w plC6w rfl).2.2.1

/-- Claim C5 (amended): the coercions that are guarded do default — a
cart-change entry whose price and quantity fields are absent yields an
entry with price `0` and quantity `1`; a payment-summary entry whose
details do not start with `$` is skipped entirely; a transaction-summary
detail string that cannot be parsed yields the value `0`.  (A cart-change
entry with a present but malformed price or quantity instead raises an
uncaught error: see the counterexample.) -/
theorem C5_amended_coercions :
    (∀ c : CartRaw, c.price = none → c.quantity = none →
      ∃ e, processCartEntry c = some e ∧ e.price = 0 ∧ e.quantity = 1 ∧
        e.name = c.itemName.getD "") ∧
    (∀ (buf : Buffer) (p : PaySummEntry) (rest : List PaySummEntry),
      strStarts (p.details.getD "") "$" = false →
      processPayEntries buf (p :: rest) = processPayEntries buf rest) ∧
    (∀ s : String, parsePyFloat (cleanedDetails s) = none → summaryDetailVal s = 0) := by
  refine ⟨fun c hp hq => ?_, fun buf p rest hd => ?_, fun s hs => ?_⟩
  · refine ⟨{ name := c.itemName.getD "", price := 0, quantity := 1,
              event := if c.eventType == some "voidLineItem" then "void" else "add" },
      ?_, rfl, rfl, rfl⟩
    unfold processCartEntry
    rw [hp, hq]
  · simp only [processPayEntries]
    rw [hd]
    simp
  · unfold summaryDetailVal
    rw [hs]
    rfl

/-- Cart-change entry with a present but malformed (non-numeric) price,
used to refute claim C5. -/
def cBadC5 : CartRaw :=
  { eventType := some "addLineItem", itemName := some "Widget",
    price := some (PyVal.str "abc"), quantity := none }

/-- Claim C5 (counterexample): a cart-change entry whose price is the
non-numeric string `"abc"` makes the assembler raise (`float("abc")`,
modelled `none`) instead of appending an entry with price `0` and
quantity `1`. -/
theorem C5_counterexample_malformed_price_raises :
    processCartEntry cBadC5 = none ∧
    processCartEntry cBadC5 ≠
      some { name := "Widget", price := 0, quantity := 1, event := "add" } := by
  refine ⟨rfl, fun hcontra => ?_⟩
  rw [show processCartEntry cBadC5 = none from rfl] at hcontra
  exact Option.noConfusion hcontra

/-- Cart-change entry with absent price and quantity, used in the witness
for the amended claim C5. -/
def cGoodC5 : CartRaw :=
  { eventType := none, itemName := some "Chips", price := none, quantity := none }

/-- Witness for the amended claim C5: an entry with absent price and
quantity fields defaults to price `0`, quantity `1`. -/
theorem C5_amended_coercions_witness :
    ∃ e, processCartEntry cGoodC5 = some e ∧ e.price = 0 ∧ e.quantity = 1 ∧
      e.name = cGoodC5.itemName.getD "" :=
  C5_amended_coercions.1 cGoodC5 rfl rfl
